import Mathlib

/-!
Shallow embedding of the whatsapp-telegram-signal relay server.

The definitions below are translated from the JavaScript source:
  - src/services/telegram.js   (formatNumber, formatTradingViewMessage)
  - src/services/whatsapp.js   (formatTradingMessage Whapi variant,
                                sendFormattedMessageToMultipleGroups)
  - src/main.js                (the /webhook handler and handleTextMessage)
  - src/services/newsChecker   (isNewsAlreadySent, markNewsAsSent,
                                checkAndSendNewNews)
JavaScript strings are modelled as Lean String, machine time as Int
milliseconds, database and network effects as explicit state passing and
Except values, and try/catch as pattern matching on Except.
-/

namespace WTS

/-- JavaScript truthiness of an optional string field: undefined and the
empty string are falsy, every other string is truthy. -/
def jsTruthy : Option String → Bool
  | none => false
  | some s => s ≠ ""

/-- ASCII whitespace, as trimmed by String.prototype.trim on the ASCII
payloads this relay handles. -/
def jsIsWhitespace (c : Char) : Bool :=
  c = ' ' || c = '\t' || c = '\n' || c = '\r'

/-- String.prototype.trim: leading and trailing whitespace removed. -/
def jsTrim (s : String) : String :=
  String.mk (((s.toList.dropWhile jsIsWhitespace).reverse.dropWhile jsIsWhitespace).reverse)

/-- String.prototype.toUpperCase on ASCII text. -/
def strToUpper (s : String) : String :=
  String.mk (s.toList.map Char.toUpper)

/-- String.prototype.toLowerCase on ASCII text. -/
def strToLower (s : String) : String :=
  String.mk (s.toList.map Char.toLower)

/-- String.prototype.startsWith. -/
def strStartsWith (s pre : String) : Bool :=
  pre.toList.isPrefixOf s.toList

/-- String.prototype.includes for a single character. -/
def strContainsChar (s : String) (c : Char) : Bool :=
  s.toList.contains c

/-- Split of a character list at every occurrence of the separator. -/
def splitCharList (sep : Char) : List Char → List Char → List (List Char)
  | [], acc => [acc.reverse]
  | x :: xs, acc =>
    if x = sep then acc.reverse :: splitCharList sep xs []
    else splitCharList sep xs (x :: acc)

/-- String.prototype.split at a comma. -/
def splitComma (s : String) : List String :=
  (splitCharList ',' s.toList []).map String.mk

/-- JavaScript a || b for an optional string with a string fallback:
yields a when a is truthy, otherwise the fallback. -/
def jsOr (a : Option String) (b : String) : String :=
  match a with
  | some s => if s = "" then b else s
  | none => b

/-- JavaScript template interpolation of a possibly-undefined string:
an undefined value renders as the text undefined. -/
def jsTemplate : Option String → String
  | some s => s
  | none => "undefined"

/-- Key normalisation from the formatters:
key.toUpperCase().replace(nonAlphanumeric, empty) keeping A-Z and 0-9. -/
def formatKey (k : String) : String :=
  String.mk ((strToUpper k).toList.filter (fun c => (decide ('A' ≤ c) && decide (c ≤ 'Z')) || c.isDigit))

/-- Parse of the numeric-shape regular expression used by formatNumber
(an optional minus sign, one or more digits, an optional dot, zero or
more digits); yields the sign and the integer and fraction digit runs. -/
def parseDecimalShape (l : List Char) : Option (Bool × List Char × List Char) :=
  let (neg, rest) :=
    match l with
    | '-' :: r => (true, r)
    | _ => (false, l)
  let intD := rest.takeWhile Char.isDigit
  let r1 := rest.dropWhile Char.isDigit
  if intD.isEmpty then none
  else
    match r1 with
    | [] => some (neg, intD, [])
    | '.' :: r2 => if r2.all Char.isDigit then some (neg, intD, r2) else none
    | _ => none

/-- Numeric value of a run of decimal digit characters. -/
def digitsToNat (l : List Char) : Nat :=
  l.foldl (fun a c => a * 10 + (c.toNat - '0'.toNat)) 0

/-- Left pad of a natural number rendering to four digits, used for the
fraction part produced by toFixed(4). -/
def padFrac4 (r : Nat) : String :=
  let s := toString r
  String.mk (List.replicate (4 - s.length) '0') ++ s

/-- Trailing zero characters dropped from a digit run. -/
def dropTrailingZeros (l : List Char) : List Char :=
  (l.reverse.dropWhile (fun c => c = '0')).reverse

/-- formatNumber from src/services/telegram.js (exact decimal model of
parseFloat plus toFixed(4) plus the trailing-zero strip): when the
trimmed value matches the numeric shape, round it to at most four
decimal places and trim trailing zeros and a bare dot; otherwise return
the trimmed value; the empty string is returned unchanged. -/
def formatNumber (value : String) : String :=
  if value = "" then value
  else
    let strValue := jsTrim value
    match parseDecimalShape strValue.toList with
    | none => strValue
    | some (neg, intD, fracD) =>
      let fracScaled :=
        if fracD.length ≤ 4 then digitsToNat fracD * 10 ^ (4 - fracD.length)
        else
          let div := 10 ^ (fracD.length - 4)
          let fnum := digitsToNat fracD
          fnum / div + (if div ≤ 2 * (fnum % div) then 1 else 0)
      let total := digitsToNat intD * 10000 + fracScaled
      let q := total / 10000
      let r := total % 10000
      let sign := if neg then "-" else ""
      if r = 0 then sign ++ toString q
      else sign ++ toString q ++ "." ++ String.mk (dropTrailingZeros (padFrac4 r).toList)

/-- Trading-signal data object as consumed by the message formatters:
the recognised core fields plus the remaining own properties in
insertion order.  Values are modelled as strings; an absent field is
none. -/
structure TVData where
  title : Option String := none
  datetime : Option String := none
  action : Option String := none
  symbol : Option String := none
  price : Option String := none
  side : Option String := none
  ticker : Option String := none
  close : Option String := none
  extra : List (String × String) := []
deriving Repr, DecidableEq

/-- Extra-property block shared by the formatters: keep the properties
whose lower-cased key is not excluded and whose value is non-empty, and
render each as a line of the normalised key, a colon and the value put
through the given value formatter. -/
def renderExtraLines (fmt : String → String) (excluded : List String)
    (extra : List (String × String)) : String :=
  let additional := extra.filter (fun kv => !(excluded.contains (strToLower kv.1)) && kv.2 ≠ "")
  if additional.isEmpty then ""
  else "\n" ++ String.join (additional.map (fun kv => "\n" ++ formatKey kv.1 ++ ": " ++ fmt kv.2))

/-- Excluded key list of formatTradingViewMessage in telegram.js. -/
def telegramExcludedKeys : List String :=
  ["title", "datetime", "action", "side", "symbol", "ticker", "price", "close"]

/-- formatTradingViewMessage from src/services/telegram.js: title line,
datetime line, blank line, then ACTION SYMBOL PRICE with the action
upper-cased and the price normalised by formatNumber, followed by the
extra-property lines whose values are also normalised by formatNumber.
The nowIso argument stands for new Date().toISOString(). -/
def formatTradingViewMessage (nowIso : String) (d : TVData) : String :=
  let messageTitle := jsOr d.title "Yeni Islem Onerisi"
  let messageDatetime := jsOr d.datetime nowIso
  let messageAction := strToUpper (jsOr d.action (jsOr d.side ""))
  let messageSymbol := jsOr d.symbol (jsOr d.ticker "")
  let messagePrice := formatNumber (jsOr d.price (jsOr d.close ""))
  messageTitle ++ "\n" ++ messageDatetime ++ "\n\n" ++
    messageAction ++ " " ++ messageSymbol ++ " " ++ messagePrice ++
    renderExtraLines formatNumber telegramExcludedKeys d.extra

/-- Excluded key list of the Whapi formatTradingMessage in whatsapp.js. -/
def whapiExcludedKeys : List String :=
  ["title", "datetime", "action", "symbol", "price"]

/-- formatTradingMessage, Whapi variant, from src/services/whatsapp.js:
same layout as the Telegram formatter but the core fields are rendered
verbatim by template interpolation and the extra-property values are NOT
put through formatNumber. -/
def formatTradingMessageWhapi (nowIso : String) (d : TVData) : String :=
  jsTemplate d.title ++ "\n" ++ jsOr d.datetime nowIso ++ "\n\n" ++
    jsTemplate d.action ++ " " ++ jsTemplate d.symbol ++ " " ++ jsTemplate d.price ++
    renderExtraLines (fun v => v) whapiExcludedKeys d.extra

/-- Group id normalisation of the multi-group senders in whatsapp.js:
the whatsapp scheme is put in front unless already present. -/
def formatGroupId (g : String) : String :=
  if strStartsWith g "whatsapp:" then g else "whatsapp:" ++ g

/-- Aggregate result object of sendFormattedMessageToMultipleGroups. -/
structure MultiGroupResults where
  success : Bool
  total : Nat
  succeeded : Nat
  failed : Nat
  groups : List (String × Bool)
deriving Repr, DecidableEq

/-- One iteration of the per-group send loop in
sendFormattedMessageToMultipleGroups: on a successful send increment
succeeded, on a thrown send error increment failed and clear the
aggregate success flag; either way record the per-group outcome. -/
def multiGroupStep (ok : String → Bool) (r : MultiGroupResults) (g : String) : MultiGroupResults :=
  let fg := formatGroupId g
  if ok fg then
    { r with succeeded := r.succeeded + 1, groups := r.groups ++ [(fg, true)] }
  else
    { r with failed := r.failed + 1, success := false, groups := r.groups ++ [(fg, false)] }

/-- sendFormattedMessageToMultipleGroups from src/services/whatsapp.js:
starts from success true and zero counters and runs the send loop over
every group id; ok tells whether the underlying sendFormattedMessage to
a formatted group id succeeds. -/
def sendFormattedMessageToMultipleGroups (ok : String → Bool) (groupIds : List String) :
    MultiGroupResults :=
  groupIds.foldl (multiGroupStep ok)
    { success := true, total := groupIds.length, succeeded := 0, failed := 0, groups := [] }

/-- Recipient override value: the groupId and groupIds request fields can
each hold a single string or an array of strings. -/
inductive GroupSpec
  | str (s : String)
  | arr (l : List String)
deriving Repr, DecidableEq

/-- JavaScript truthiness of an optional groupId or groupIds value: an
empty string is falsy, every array (even empty) is truthy. -/
def groupSpecTruthy : Option GroupSpec → Bool
  | none => false
  | some (.str s) => s ≠ ""
  | some (.arr _) => true

/-- JavaScript a || b over optional recipient override values. -/
def jsOrSpec (a b : Option GroupSpec) : Option GroupSpec :=
  if groupSpecTruthy a then a else b

/-- An environment variable read as a recipient value (undefined and the
empty string are both falsy). -/
def envSpec : Option String → Option GroupSpec
  | none => none
  | some s => if s = "" then none else some (.str s)

/-- Inbound webhook payload of src/main.js: the recognised fields of the
two accepted formats; absent fields are none. -/
structure WebhookPayload where
  msg : Option String := none
  symbol : Option String := none
  title : Option String := none
  datetime : Option String := none
  action : Option String := none
  price : Option String := none
  groupId : Option GroupSpec := none
  groupIds : Option GroupSpec := none
deriving Repr

/-- Server environment and collaborator outcomes for one request:
configured recipient defaults, whether the chart fetch yields an image,
and the success of each outbound transport call. -/
structure ServerEnv where
  whatsappGroups : Option String := none
  whatsappGroupId : Option String := none
  chartOk : Bool := false
  waSendOk : String → Bool := fun _ => false
  tgSendOk : Bool := false
  waTextOk : Bool := false
  tgTextOk : Bool := false
  nowIso : String := ""

/-- Recipient resolution of the /webhook handler:
req.body.groupId || req.body.groupIds || WHATSAPP_GROUPS || WHATSAPP_TO_NUMBERS. -/
def resolveTargetGroups (env : ServerEnv) (p : WebhookPayload) : Option GroupSpec :=
  jsOrSpec p.groupId (jsOrSpec p.groupIds
    (jsOrSpec (envSpec env.whatsappGroups) (envSpec env.whatsappGroupId)))

/-- The multiple-groups branch condition of the handler:
Array.isArray(targetGroups) or a string containing a comma. -/
def isMultiSpec : GroupSpec → Bool
  | .arr _ => true
  | .str s => strContainsChar s ','

/-- The group id list of the multiple-groups branch: the array itself, or
the comma-separated string split and trimmed. -/
def splitGroups : GroupSpec → List String
  | .arr l => l
  | .str s => (splitComma s).map jsTrim

/-- Outcome of the WhatsApp kind for one signal request, as recorded in
results.whatsapp by the handler. -/
structure WaKindResult where
  success : Bool
  error : Option String := none
  multi : Option MultiGroupResults := none
deriving Repr, DecidableEq

/-- The WhatsApp send block of the /webhook handler: multiple groups go
through sendFormattedMessageToMultipleGroups and report its aggregate
success; a single recipient is trimmed and sent to directly; a missing
recipient throws inside the block and the catch records a failed
WhatsApp result with the error message. -/
def waSignalSend (env : ServerEnv) (spec? : Option GroupSpec) : WaKindResult :=
  match spec? with
  | none => { success := false, error := some "No WhatsApp group ID configured or provided" }
  | some spec =>
    if isMultiSpec spec then
      let r := sendFormattedMessageToMultipleGroups env.waSendOk (splitGroups spec)
      { success := r.success, multi := some r }
    else
      match spec with
      | .str s =>
        if env.waSendOk (jsTrim s) then { success := true }
        else { success := false, error := some "send failed" }
      | .arr _ =>
        if env.waSendOk "" then { success := true }
        else { success := false, error := some "send failed" }

/-- HTTP response of the /webhook endpoint, by outcome shape. -/
inductive WebhookResponse
  | textOk (wa tg : Bool)
  | badRequest (msg : String)
  | ok (chartIncluded wa tg : Bool)
  | serverError
deriving Repr, DecidableEq

/-- Observable side channel of one request: the prepared text body, the
chart and send attempts made, and the per-kind outcomes. -/
structure Trace where
  textBody : Option String := none
  chartAttempted : Bool := false
  chartIncluded : Bool := false
  waResult : Option WaKindResult := none
  tgAttempted : Bool := false
  tgMessage : Option String := none
deriving Repr, DecidableEq

/-- handleTextMessage from src/main.js: trim msg and symbol, try a chart
for a non-empty symbol, build the msg plus Symbol line text, send to
both transports, and succeed when at least one of them succeeded. -/
def handleTextMessage (env : ServerEnv) (p : WebhookPayload) : WebhookResponse × Trace :=
  let msg := jsTrim (jsTemplate p.msg)
  let symbol := jsTrim (jsTemplate p.symbol)
  let chartAttempted := symbol ≠ ""
  let chartIncluded := chartAttempted && env.chartOk
  let messageText := msg ++ "\nSymbol: " ++ symbol
  let waOk := env.waTextOk
  let tgOk := env.tgTextOk
  let hasSuccess := waOk || tgOk
  let resp := if hasSuccess then WebhookResponse.textOk waOk tgOk else WebhookResponse.serverError
  (resp,
    { textBody := some messageText, chartAttempted := chartAttempted,
      chartIncluded := chartIncluded, tgAttempted := true, tgMessage := some messageText })

/-- The /webhook handler of src/main.js: route to the text path when msg
and symbol are both truthy; otherwise validate the trading-signal
fields, reject a missing field or an action other than BUY or SELL with
a client error before any chart fetch or send, and otherwise fan the
formatted signal out to the WhatsApp recipients and to Telegram,
succeeding when at least one kind succeeded. -/
def handleWebhook (env : ServerEnv) (p : WebhookPayload) : WebhookResponse × Trace :=
  if jsTruthy p.msg && jsTruthy p.symbol then handleTextMessage env p
  else if !(jsTruthy p.title && jsTruthy p.action && jsTruthy p.symbol && jsTruthy p.price) then
    (WebhookResponse.badRequest
      "Missing required fields: title, action, symbol, price (or use msg + symbol for text format)",
      {})
  else
    let action := jsTemplate p.action
    if !(strToUpper action = "BUY" || strToUpper action = "SELL") then
      (WebhookResponse.badRequest "Action must be either BUY or SELL", {})
    else
      let signalData : TVData :=
        { title := p.title, datetime := some (jsOr p.datetime env.nowIso),
          action := some (strToUpper action), symbol := p.symbol, price := p.price }
      let chartIncluded := env.chartOk
      let waR := waSignalSend env (resolveTargetGroups env p)
      let tgOk := env.tgSendOk
      let tgMsg := formatTradingViewMessage env.nowIso signalData
      let hasSuccess := waR.success || tgOk
      let resp :=
        if hasSuccess then WebhookResponse.ok chartIncluded waR.success tgOk
        else WebhookResponse.serverError
      (resp,
        { chartAttempted := true, chartIncluded := chartIncluded, waResult := some waR,
          tgAttempted := true, tgMessage := some tgMsg })

/-- Result of new Date(x) on a supplied publish date: either a valid
timestamp in milliseconds or an invalid date (isNaN getTime). -/
inductive DateVal
  | invalid
  | valid (t : Int)
deriving Repr, DecidableEq

/-- News item as handled by the news checker; absent fields are none. -/
structure NewsItem where
  mongoId : Option String := none
  altId : Option String := none
  header : Option String := none
  summary : Option String := none
  publishDate : Option DateVal := none
  tag : List String := []
deriving Repr, DecidableEq

/-- The identifier expression item._id || item.id of the news checker,
normalised so that a falsy result is none. -/
def newsIdOf (it : NewsItem) : Option String :=
  if jsTruthy it.mongoId then it.mongoId
  else if jsTruthy it.altId then it.altId
  else none

/-- One persisted SentNews document (src/models/sentNews). -/
structure SentRecord where
  newsId : String
  header : Option String := none
  tag : List String := []
  sentAt : Int := 0
deriving Repr, DecidableEq

/-- The dedup store together with its failure condition: the persisted
records plus whether reads and writes currently fail. -/
structure DedupStore where
  recs : List SentRecord := []
  readFail : Bool := false
  writeFail : Bool := false
deriving Repr, DecidableEq

/-- SentNews.findOne on the record list. -/
def findOneSent (recs : List SentRecord) (id : String) : Option SentRecord :=
  recs.find? (fun r => r.newsId = id)

/-- The awaited SentNews.findOne call: an I/O failure is a thrown error. -/
def sentNewsFindOne (st : DedupStore) (id : String) : Except String (Option SentRecord) :=
  if st.readFail then Except.error "read failure" else Except.ok (findOneSent st.recs id)

/-- isNewsAlreadySent from the news checker: true iff a record exists;
the catch logs a store error and returns false so that no news item is
dropped. -/
def isNewsAlreadySent (st : DedupStore) (id : String) : Bool :=
  match sentNewsFindOne st id with
  | Except.ok r => r.isSome
  | Except.error _ => false

/-- The upsert semantics of SentNews.findOneAndUpdate with upsert true:
replace the fields of an existing record with the same key, or append a
new record. -/
def upsertSent (recs : List SentRecord) (r : SentRecord) : List SentRecord :=
  if (findOneSent recs r.newsId).isSome then
    recs.map (fun x => if x.newsId = r.newsId then r else x)
  else recs ++ [r]

/-- The awaited findOneAndUpdate call: an I/O failure is a thrown error. -/
def sentNewsUpsert (st : DedupStore) (r : SentRecord) : Except String (List SentRecord) :=
  if st.writeFail then Except.error "write failure" else Except.ok (upsertSent st.recs r)

/-- markNewsAsSent from the news checker: return unchanged when the item
has no identifier; otherwise upsert the record keyed by the identifier;
the catch swallows a write failure and leaves the store unchanged. -/
def markNewsAsSent (st : DedupStore) (item : NewsItem) (now : Int) : List SentRecord :=
  match newsIdOf item with
  | none => st.recs
  | some id =>
    match sentNewsUpsert st { newsId := id, header := item.header, tag := item.tag, sentAt := now } with
    | Except.ok recs => recs
    | Except.error _ => st.recs

/-- Outbound channel of one news notifier attempt. -/
inductive NewsChannel
  | telegram
  | whatsapp
deriving Repr, DecidableEq

/-- One notifier invocation made by the news poller. -/
structure Invocation where
  channel : NewsChannel
  target : String
  newsId : String
deriving Repr, DecidableEq

/-- Configuration and collaborator outcomes of the news checker:
the optional additional Telegram chat id and WhatsApp news number from
the environment, and the success of each outbound send keyed by the
news identifier. -/
structure NewsEnv where
  telegramAdditionalChatId : Option String := none
  whatsappNewsPhone : Option String := none
  tgOk : String → Bool := fun _ => false
  waOk : String → Bool := fun _ => false

/-- A send call wrapped in its own try/catch: the thrown failure is
caught and discarded, so the outcome never escapes the loop body. -/
def trySendCaught (ok : Bool) : Unit :=
  match (if ok then Except.ok () else Except.error "send failed" : Except String Unit) with
  | Except.ok _ => ()
  | Except.error _ => ()

/-- The retention window of the news checker: two days in milliseconds. -/
def twoDaysMs : Int := 2 * 24 * 60 * 60 * 1000

/-- The candidate filter of checkAndSendNewNews in the news checker:
drop an item without an identifier; drop an item whose valid publish
date is older than two days before now (an invalid date only skips the
date filter); finally drop an item already recorded in the dedup store. -/
def freshFilter (st : DedupStore) (now : Int) (items : List NewsItem) : List NewsItem :=
  items.filter (fun it =>
    match newsIdOf it with
    | none => false
    | some id =>
      (match it.publishDate with
       | some (DateVal.valid t) => !(t < now - twoDaysMs)
       | some DateVal.invalid => true
       | none => true) &&
      !(isNewsAlreadySent st id))

/-- The body of the per-item send loop in checkAndSendNewNews: attempt
the Telegram send when the additional chat id (defaulted to the built-in
group) is truthy and the WhatsApp send when the news number is
configured, each inside its own try/catch, then mark the item as sent
whatever the send outcomes were. -/
def sendNewsItem (env : NewsEnv) (st : DedupStore) (item : NewsItem) (now : Int) :
    List SentRecord × List Invocation :=
  let nid := jsTemplate (newsIdOf item)
  let additionalGroupId := jsOr env.telegramAdditionalChatId "-1003148217444"
  let tgInvs :=
    if additionalGroupId ≠ "" then
      let _u := trySendCaught (env.tgOk nid)
      [({ channel := NewsChannel.telegram, target := additionalGroupId, newsId := nid } : Invocation)]
    else []
  let waInvs :=
    if jsTruthy env.whatsappNewsPhone then
      let _u := trySendCaught (env.waOk nid)
      [({ channel := NewsChannel.whatsapp, target := jsTemplate env.whatsappNewsPhone,
          newsId := nid } : Invocation)]
    else []
  (markNewsAsSent st item now, tgInvs ++ waInvs)

/-- The send loop of checkAndSendNewNews over the filtered candidates:
each item is sent and marked against the store state left by the
previous items; the counter increments once per processed item. -/
def sendPhase (env : NewsEnv) (readFail writeFail : Bool) (now : Int) :
    List SentRecord → List NewsItem → List SentRecord × List Invocation × Nat
  | recs, [] => (recs, [], 0)
  | recs, item :: rest =>
    let step := sendNewsItem env { recs := recs, readFail := readFail, writeFail := writeFail } item now
    let next := sendPhase env readFail writeFail now step.1 rest
    (next.1, step.2 ++ next.2.1, 1 + next.2.2)

/-- One tag iteration of checkAndSendNewNews: a thrown fetch is caught
and the tag contributes nothing; an empty batch is skipped; otherwise
the batch is filtered against the store and the remaining candidates
are sent and marked. -/
def processTag (env : NewsEnv) (st : DedupStore) (now : Int)
    (fetch : Except String (List NewsItem)) : List SentRecord × List Invocation × Nat :=
  match fetch with
  | Except.error _ => (st.recs, [], 0)
  | Except.ok items =>
    if items.isEmpty then (st.recs, [], 0)
    else
      let fresh := freshFilter st now items
      if fresh.isEmpty then (st.recs, [], 0)
      else sendPhase env st.readFail st.writeFail now st.recs fresh

/-- The tag loop of checkAndSendNewNews over the configured tags in
their fixed order, threading the store and accumulating the notifier
invocations and the new-news counter. -/
def runTags (env : NewsEnv) (readFail writeFail : Bool) (now : Int)
    (fetchFn : String → Except String (List NewsItem)) :
    List SentRecord → List String → List SentRecord × List Invocation × Nat
  | recs, [] => (recs, [], 0)
  | recs, tag :: rest =>
    let step := processTag env { recs := recs, readFail := readFail, writeFail := writeFail } now
      (fetchFn tag)
    let next := runTags env readFail writeFail now fetchFn step.1 rest
    (next.1, step.2.1 ++ next.2.1, step.2.2 + next.2.2)

/-- AVAILABLE_TAGS of the news service. -/
def AVAILABLE_TAGS : List String := ["CURRENCY", "GOLD", "CRYPTO", "PRODUCT"]

/-- Structured result object returned by checkAndSendNewNews. -/
structure CycleResult where
  success : Bool
  newNewsCount : Nat := 0
  totalChecked : Nat := 0
  error : Option String := none
deriving Repr, DecidableEq

/-- checkAndSendNewNews from the news checker: bail out with a failure
result when the database connection is unavailable; otherwise run the
tag loop over AVAILABLE_TAGS (every per-tag and per-item failure is
caught inside the loop) and return the successful structured result with
the count of processed items. -/
def checkAndSendNewNews (env : NewsEnv) (mongoAvailable : Bool) (st : DedupStore) (now : Int)
    (fetchFn : String → Except String (List NewsItem)) :
    CycleResult × List SentRecord × List Invocation :=
  if mongoAvailable then
    let out := runTags env st.readFail st.writeFail now fetchFn st.recs AVAILABLE_TAGS
    ({ success := true, newNewsCount := out.2.2, totalChecked := AVAILABLE_TAGS.length },
      out.1, out.2.1)
  else
    ({ success := false, error := some "MongoDB connection not available" }, st.recs, [])

/-- Fixture: per-group send outcome where only the first group delivers. -/
def c1SendOk : String → Bool := fun g => g = "whatsapp:g1"

/-- Fixture: a valid signal payload targeting two WhatsApp groups. -/
def c1Payload : WebhookPayload :=
  { title := some "t", datetime := some "dt", action := some "BUY", symbol := some "BTCUSD",
    price := some "45000", groupIds := some (GroupSpec.arr ["g1", "g2"]) }

/-- Fixture: environment where Telegram is down and WhatsApp delivery is c1SendOk. -/
def c1Env : ServerEnv := { waSendOk := c1SendOk, tgSendOk := false, nowIso := "now" }

/-- Fixture: a valid signal payload with no recipient override. -/
def c6Payload : WebhookPayload :=
  { title := some "t", datetime := some "dt", action := some "buy", symbol := some "BTCUSD",
    price := some "45000" }

/-- Fixture: environment with no configured WhatsApp recipients and healthy Telegram. -/
def c6Env : ServerEnv := { tgSendOk := true, nowIso := "now" }

/-- Fixture: the accepted lower-case buy payload of the validation property. -/
def c7Payload : WebhookPayload :=
  { title := some "t", datetime := some "dt", action := some "buy", symbol := some "BTCUSD",
    price := some "45000" }

/-- Fixture: environment with healthy Telegram for the acceptance case. -/
def c7Env : ServerEnv := { tgSendOk := true, nowIso := "now" }

/-- Fixture: payload with the unsupported HOLD action. -/
def c7HoldPayload : WebhookPayload :=
  { title := some "t", action := some "HOLD", symbol := some "X", price := some "1" }

/-- Fixture: payload missing the price field. -/
def c7MissingPricePayload : WebhookPayload :=
  { title := some "t", action := some "buy", symbol := some "BTCUSD" }

/-- Fixture: signal data carrying the extra stopLoss field. -/
def c8Data : TVData :=
  { title := some "t", datetime := some "dt", action := some "BUY", symbol := some "BTCUSD",
    price := some "45000", extra := [("stopLoss", "44000.12340")] }

/-- Fixture: text-format payload whose hidden signal fields would fail validation. -/
def c10Payload : WebhookPayload :=
  { msg := some " hello ", symbol := some "BTCUSD", action := some "HOLD" }

/-- Fixture: news environment with a configured WhatsApp news number. -/
def c2NewsEnv : NewsEnv := { whatsappNewsPhone := some "555" }

/-- Fixture: a fresh news item without a publish date. -/
def c2Item : NewsItem := { mongoId := some "news-1", header := some "h", tag := ["CRYPTO"] }

/-- Fixture: news environment in which every channel send fails. -/
def c3NewsEnv : NewsEnv :=
  { whatsappNewsPhone := some "555", tgOk := fun _ => false, waOk := fun _ => false }

/-- Fixture: a news item identified only by its alternate id. -/
def c3Item : NewsItem := { altId := some "n3" }

/-- Fixture: a news item published at time zero, stale against a later poll. -/
def c4Item : NewsItem := { mongoId := some "n4", publishDate := some (DateVal.valid 0) }

/-- Fixture: a dedup store whose reads and writes all fail. -/
def c5Store : DedupStore := { recs := [], readFail := true, writeFail := true }

/-- Fixture: a news item without any identifier. -/
def c5Item : NewsItem := {}

/-- Fixture: a news source whose every fetch fails. -/
def c9FetchFn : String → Except String (List NewsItem) := fun _ => Except.error "fetch down"

/-- The send loop of one batch leaves the aggregate success flag true
exactly when the flag was true and every group in the batch delivered. -/
theorem multiGroup_foldl_success (ok : String → Bool) (gids : List String) (r : MultiGroupResults) :
    (gids.foldl (multiGroupStep ok) r).success
      = (r.success && gids.all (fun g => ok (formatGroupId g))) := by
  induction gids generalizing r with
  | nil => simp
  | cons g gs ih =>
    simp only [List.foldl_cons, List.all_cons, ih]
    by_cases h : ok (formatGroupId g) <;> simp [multiGroupStep, h, Bool.and_assoc]

/-- The aggregate success of the multi-group sender is all-or-nothing:
true exactly when every group send succeeded. -/
theorem sendFMTMG_success (ok : String → Bool) (gids : List String) :
    (sendFormattedMessageToMultipleGroups ok gids).success
      = gids.all (fun g => ok (formatGroupId g)) := by
  simp [sendFormattedMessageToMultipleGroups, multiGroup_foldl_success]

/-- markNewsAsSent on an identified item and a writable store is the
record upsert keyed by that identifier. -/
theorem markNewsAsSent_eq (st : DedupStore) (item : NewsItem) (now : Int) (id : String)
    (hid : newsIdOf item = some id) (hw : st.writeFail = false) :
    markNewsAsSent st item now
      = upsertSent st.recs { newsId := id, header := item.header, tag := item.tag, sentAt := now } := by
  unfold markNewsAsSent sentNewsUpsert
  rw [hid]
  simp [hw]

/-- Upsert preserves the at-most-one-record-per-key bound. -/
theorem countP_upsert_le (recs : List SentRecord) (r : SentRecord) (key : String)
    (h : recs.countP (fun x => x.newsId = key) ≤ 1) :
    (upsertSent recs r).countP (fun x => x.newsId = key) ≤ 1 := by
  unfold upsertSent
  by_cases hf : (findOneSent recs r.newsId).isSome = true
  · rw [if_pos hf]
    rw [List.countP_map]
    have hcong : ∀ x ∈ recs,
        ((fun x => decide (x.newsId = key)) ∘ fun x => if x.newsId = r.newsId then r else x) x = true
          ↔ (fun x => decide (x.newsId = key)) x = true := by
      intro x _
      by_cases hx : x.newsId = r.newsId <;> simp [hx]
    rw [List.countP_congr hcong]
    exact h
  · rw [if_neg hf]
    rw [List.countP_append]
    by_cases hk : r.newsId = key
    · have h0 : recs.countP (fun x => x.newsId = key) = 0 := by
        rw [List.countP_eq_zero]
        intro x hx
        have := List.find?_eq_none.mp (Option.not_isSome_iff_eq_none.mp hf) x hx
        simp at this
        simp [← hk, this]
      simp [h0, hk]
    · simpa [hk] using h

/-- Upsert into a store with at most one record for the key leaves
exactly one record for the key. -/
theorem countP_upsert_eq_one (recs : List SentRecord) (r : SentRecord)
    (h : recs.countP (fun x => x.newsId = r.newsId) ≤ 1) :
    (upsertSent recs r).countP (fun x => x.newsId = r.newsId) = 1 := by
  unfold upsertSent
  by_cases hf : (findOneSent recs r.newsId).isSome = true
  · rw [if_pos hf]
    rw [List.countP_map]
    have hcong : ∀ x ∈ recs,
        ((fun x => decide (x.newsId = r.newsId)) ∘ fun x => if x.newsId = r.newsId then r else x) x
            = true
          ↔ (fun x => decide (x.newsId = r.newsId)) x = true := by
      intro x _
      by_cases hx : x.newsId = r.newsId <;> simp [hx]
    rw [List.countP_congr hcong]
    have hpos : 0 < recs.countP (fun x => x.newsId = r.newsId) := by
      rw [List.countP_pos_iff]
      obtain ⟨x, hfind⟩ := Option.isSome_iff_exists.mp hf
      have hmem := List.mem_of_find?_eq_some hfind
      have hpx := List.find?_some hfind
      exact ⟨x, hmem, hpx⟩
    omega
  · rw [if_neg hf]
    rw [List.countP_append]
    have h0 : recs.countP (fun x => x.newsId = r.newsId) = 0 := by
      rw [List.countP_eq_zero]
      intro x hx
      exact List.find?_eq_none.mp (Option.not_isSome_iff_eq_none.mp hf) x hx
    simp [h0]

/-- After an upsert the upserted key is present in the store. -/
theorem findOne_upsert_isSome (recs : List SentRecord) (r : SentRecord) :
    (findOneSent (upsertSent recs r) r.newsId).isSome = true := by
  unfold upsertSent
  by_cases hf : (findOneSent recs r.newsId).isSome = true
  · rw [if_pos hf]
    unfold findOneSent
    rw [List.find?_isSome]
    obtain ⟨x, hfind⟩ := Option.isSome_iff_exists.mp hf
    have hmem := List.mem_of_find?_eq_some hfind
    have hpx := List.find?_some hfind
    refine ⟨r, ?_, by simp⟩
    have hfx : (if x.newsId = r.newsId then r else x) = r := by
      simp at hpx
      simp [hpx]
    have hmm : (if x.newsId = r.newsId then r else x)
        ∈ List.map (fun y => if y.newsId = r.newsId then r else y) recs :=
      List.mem_map_of_mem _ hmem
    rw [hfx] at hmm
    exact hmm
  · rw [if_neg hf]
    unfold findOneSent
    rw [List.find?_isSome]
    exact ⟨r, by simp, by simp⟩

/-- An identified item already recorded in the store is dropped by the
candidate filter. -/
theorem freshFilter_single_skip (st : DedupStore) (now : Int) (item : NewsItem) (id : String)
    (hid : newsIdOf item = some id) (hal : isNewsAlreadySent st id = true) :
    freshFilter st now [item] = [] := by
  have hpred : (match newsIdOf item with
      | none => false
      | some id =>
        (match item.publishDate with
         | some (DateVal.valid t) => !(t < now - twoDaysMs)
         | some DateVal.invalid => true
         | none => true) &&
        !(isNewsAlreadySent st id)) = false := by
    rw [hid]
    simp [hal]
  simp only [freshFilter, List.filter, hpred]

/-- A tag iteration over a single already-recorded item changes nothing
and makes no notifier invocation. -/
theorem processTag_single_already (env : NewsEnv) (st : DedupStore) (now : Int)
    (item : NewsItem) (id : String) (hid : newsIdOf item = some id)
    (hal : isNewsAlreadySent st id = true) :
    processTag env st now (Except.ok [item]) = (st.recs, [], 0) := by
  have hfilter := freshFilter_single_skip st now item id hid hal
  simp [processTag, hfilter]

/-- C1, counterexample: fanning one signal out to two WhatsApp groups of
which exactly one delivers yields an aggregate success flag of false,
and with Telegram also failing the webhook reports an overall failure
even though one of the targets succeeded; overallSuccess is therefore
not the at-least-one-success predicate within a channel kind. -/
theorem C1_counterexample :
    (sendFormattedMessageToMultipleGroups c1SendOk ["g1", "g2"]).succeeded = 1 ∧
    (sendFormattedMessageToMultipleGroups c1SendOk ["g1", "g2"]).success = false ∧
    (handleWebhook c1Env c1Payload).1 = WebhookResponse.serverError := by decide

/-- C1, amended: within the WhatsApp kind the aggregate success of a
multi-group fan-out is true exactly when every group send succeeded,
while across channel kinds the webhook fails overall exactly when the
WhatsApp kind result and the Telegram send both failed. -/
theorem C1_amended_fanout (ok : String → Bool) (gids : List String) (env : ServerEnv)
    (p : WebhookPayload)
    (hroute : (jsTruthy p.msg && jsTruthy p.symbol) = false)
    (hfields : (jsTruthy p.title && jsTruthy p.action && jsTruthy p.symbol && jsTruthy p.price) = true)
    (haction : (strToUpper (jsTemplate p.action) = "BUY"
        || strToUpper (jsTemplate p.action) = "SELL") = true) :
    (sendFormattedMessageToMultipleGroups ok gids).success
        = gids.all (fun g => ok (formatGroupId g)) ∧
    ((handleWebhook env p).1 = WebhookResponse.serverError ↔
      (waSignalSend env (resolveTargetGroups env p)).success = false ∧ env.tgSendOk = false) := by
  refine ⟨sendFMTMG_success ok gids, ?_⟩
  cases hwa : (waSignalSend env (resolveTargetGroups env p)).success <;>
    cases htg : env.tgSendOk <;>
      simp [handleWebhook, hroute, hfields, haction, hwa, htg]

/-- C1, witness for the amended theorem at the two-group fixture. -/
theorem C1_amended_fanout_witness :
    (sendFormattedMessageToMultipleGroups c1SendOk ["g1", "g2"]).success
        = (["g1", "g2"].all fun g => c1SendOk (formatGroupId g)) ∧
    ((handleWebhook c1Env c1Payload).1 = WebhookResponse.serverError ↔
      (waSignalSend c1Env (resolveTargetGroups c1Env c1Payload)).success = false ∧
        c1Env.tgSendOk = false) :=
  C1_amended_fanout c1SendOk ["g1", "g2"] c1Env c1Payload (by decide) (by decide) (by decide)

/-- C2: once the relay-attempt logic has recorded an item, running it
again on the same item makes zero notifier invocations and leaves the
store unchanged; markNewsAsSent preserves the at-most-one-record-per-id
invariant and leaves exactly one record for the marked identifier. -/
theorem C2_idempotent_dedup (env : NewsEnv) (recs : List SentRecord) (item : NewsItem)
    (id : String) (now now2 : Int)
    (hid : newsIdOf item = some id)
    (hmarked : (findOneSent (processTag env { recs := recs } now (Except.ok [item])).1 id).isSome
      = true) :
    processTag env { recs := (processTag env { recs := recs } now (Except.ok [item])).1 } now2
        (Except.ok [item])
      = ((processTag env { recs := recs } now (Except.ok [item])).1, [], 0) ∧
    (∀ key, recs.countP (fun r => r.newsId = key) ≤ 1 →
      (markNewsAsSent { recs := recs } item now).countP (fun r => r.newsId = key) ≤ 1) ∧
    (recs.countP (fun r => r.newsId = id) ≤ 1 →
      (markNewsAsSent { recs := recs } item now).countP (fun r => r.newsId = id) = 1) := by
  refine ⟨?_, ?_, ?_⟩
  · have hal : isNewsAlreadySent
        { recs := (processTag env { recs := recs } now (Except.ok [item])).1 } id = true := by
      simp [isNewsAlreadySent, sentNewsFindOne, hmarked]
    exact processTag_single_already env _ now2 item id hid hal
  · intro key h
    rw [markNewsAsSent_eq _ _ _ _ hid rfl]
    exact countP_upsert_le recs _ key h
  · intro h
    rw [markNewsAsSent_eq _ _ _ _ hid rfl]
    exact countP_upsert_eq_one recs
      { newsId := id, header := item.header, tag := item.tag, sentAt := now } h

/-- C2, witness: a fresh item relayed once from an empty store is not
relayed again on the second run. -/
theorem C2_idempotent_dedup_witness :
    processTag c2NewsEnv
        { recs := (processTag c2NewsEnv { recs := [] } 0 (Except.ok [c2Item])).1 } 1
        (Except.ok [c2Item])
      = ((processTag c2NewsEnv { recs := [] } 0 (Except.ok [c2Item])).1, [], 0) :=
  (C2_idempotent_dedup c2NewsEnv [] c2Item "news-1" 0 1 (by decide) (by decide)).1

/-- C3: the per-item loop body always marks the attempted item as sent,
for every assignment of channel outcomes (the all-fail assignment
included), so the item is recorded and a later dedup read sees it. -/
theorem C3_mark_on_attempt (env : NewsEnv) (st : DedupStore) (item : NewsItem) (id : String)
    (now : Int) (hid : newsIdOf item = some id) (hw : st.writeFail = false) :
    (sendNewsItem env st item now).1 = markNewsAsSent st item now ∧
    (findOneSent (sendNewsItem env st item now).1 id).isSome = true ∧
    isNewsAlreadySent { recs := (sendNewsItem env st item now).1 } id = true := by
  have h2 : (findOneSent (sendNewsItem env st item now).1 id).isSome = true := by
    show (findOneSent (markNewsAsSent st item now) id).isSome = true
    rw [markNewsAsSent_eq st item now id hid hw]
    exact findOne_upsert_isSome st.recs _
  exact ⟨rfl, h2, by simp [isNewsAlreadySent, sentNewsFindOne, h2]⟩

/-- C3, witness: with both channel sends failing the item is still
marked and subsequently reads as already sent. -/
theorem C3_mark_on_attempt_witness :
    (sendNewsItem c3NewsEnv {} c3Item 5).1 = markNewsAsSent {} c3Item 5 ∧
    isNewsAlreadySent { recs := (sendNewsItem c3NewsEnv {} c3Item 5).1 } "n3" = true :=
  ⟨(C3_mark_on_attempt c3NewsEnv {} c3Item "n3" 5 (by decide) rfl).1,
   (C3_mark_on_attempt c3NewsEnv {} c3Item "n3" 5 (by decide) rfl).2.2⟩

/-- C4: an item whose valid publish date is older than the two-day
retention window is excluded by the candidate filter of every batch, so
a tag iteration over it makes no notifier invocation and never marks
it. -/
theorem C4_stale_exclusion (env : NewsEnv) (st : DedupStore) (item : NewsItem) (id : String)
    (t now : Int) (hid : newsIdOf item = some id)
    (hdate : item.publishDate = some (DateVal.valid t)) (hstale : t < now - twoDaysMs) :
    processTag env st now (Except.ok [item]) = (st.recs, [], 0) ∧
    (∀ items : List NewsItem, item ∉ freshFilter st now items) := by
  constructor
  · simp [processTag, freshFilter, hid, hdate, hstale]
  · intro items hmem
    rw [freshFilter, List.mem_filter] at hmem
    have hp := hmem.2
    simp [hid, hdate, hstale] at hp

/-- C4, witness: a three-day-old item against a two-day window is
skipped entirely. -/
theorem C4_stale_exclusion_witness :
    processTag ({} : NewsEnv) {} (twoDaysMs + 1) (Except.ok [c4Item]) = ([], [], 0) :=
  (C4_stale_exclusion {} {} c4Item "n4" 0 (twoDaysMs + 1) (by decide) rfl (by decide)).1

/-- C5: the dedup read is fail-open (a read failure yields false, never
an error), the dedup write swallows its failure leaving the store
unchanged, and a cycle run against a fully failing store still returns
a successful structured result. -/
theorem C5_fail_open (st : DedupStore) (id : String) (item : NewsItem) (now : Int)
    (env : NewsEnv) (fetchFn : String → Except String (List NewsItem)) :
    (st.readFail = true → isNewsAlreadySent st id = false) ∧
    (st.writeFail = true → markNewsAsSent st item now = st.recs) ∧
    (checkAndSendNewNews env true { recs := st.recs, readFail := true, writeFail := true } now
        fetchFn).1.success = true := by
  refine ⟨?_, ?_, ?_⟩
  · intro h
    simp [isNewsAlreadySent, sentNewsFindOne, h]
  · intro h
    unfold markNewsAsSent sentNewsUpsert
    cases hni : newsIdOf item <;> simp [h]
  · simp [checkAndSendNewNews]

/-- C5, witness: against the all-failing store the read returns false
and the write leaves the records unchanged. -/
theorem C5_fail_open_witness :
    isNewsAlreadySent c5Store "x" = false ∧
    markNewsAsSent c5Store c5Item 0 = c5Store.recs :=
  ⟨(C5_fail_open c5Store "x" c5Item 0 {} c9FetchFn).1 rfl,
   (C5_fail_open c5Store "x" c5Item 0 {} c9FetchFn).2.1 rfl⟩

/-- C6, counterexample: a valid signal with no recipient override and no
configured defaults is not rejected with a validation error; the
missing recipient is recorded as a failed WhatsApp kind with the
thrown-and-caught error message, the Telegram relay is still attempted,
and with Telegram healthy the webhook succeeds. -/
theorem C6_counterexample :
    (handleWebhook c6Env c6Payload).1 = WebhookResponse.ok false false true ∧
    (handleWebhook c6Env c6Payload).2.waResult
      = some { success := false, error := some "No WhatsApp group ID configured or provided",
               multi := none } ∧
    (handleWebhook c6Env c6Payload).2.tgAttempted = true := by decide

/-- C6, amended: when a valid signal carries no recipient override and
no defaults are configured, the handler records a failed WhatsApp kind
carrying the no-recipient error, still attempts Telegram, never returns
a client-error response, and fails overall exactly when Telegram also
failed. -/
theorem C6_amended_missing_recipients (env : ServerEnv) (p : WebhookPayload)
    (hroute : (jsTruthy p.msg && jsTruthy p.symbol) = false)
    (hfields : (jsTruthy p.title && jsTruthy p.action && jsTruthy p.symbol && jsTruthy p.price) = true)
    (haction : (strToUpper (jsTemplate p.action) = "BUY"
        || strToUpper (jsTemplate p.action) = "SELL") = true)
    (hg1 : p.groupId = none) (hg2 : p.groupIds = none)
    (he1 : env.whatsappGroups = none) (he2 : env.whatsappGroupId = none) :
    (handleWebhook env p).2.waResult
      = some { success := false, error := some "No WhatsApp group ID configured or provided",
               multi := none } ∧
    (handleWebhook env p).2.tgAttempted = true ∧
    ((handleWebhook env p).1 = WebhookResponse.serverError ↔ env.tgSendOk = false) ∧
    (∀ e, (handleWebhook env p).1 ≠ WebhookResponse.badRequest e) := by
  have hres : resolveTargetGroups env p = none := by
    simp [resolveTargetGroups, jsOrSpec, envSpec, hg1, hg2, he1, he2, groupSpecTruthy]
  have hwa : waSignalSend env (resolveTargetGroups env p)
      = { success := false, error := some "No WhatsApp group ID configured or provided",
          multi := none } := by
    rw [hres]
    rfl
  refine ⟨?_, ?_, ?_, ?_⟩
  · simp [handleWebhook, hroute, hfields, haction, hwa]
  · simp [handleWebhook, hroute, hfields, haction]
  · cases htg : env.tgSendOk <;>
      simp [handleWebhook, hroute, hfields, haction, hwa, htg]
  · intro e
    cases htg : env.tgSendOk <;>
      simp [handleWebhook, hroute, hfields, haction, hwa, htg]

/-- C6, witness for the amended theorem at the no-recipient fixture. -/
theorem C6_amended_missing_recipients_witness :
    (handleWebhook c6Env c6Payload).2.waResult
      = some { success := false, error := some "No WhatsApp group ID configured or provided",
               multi := none } ∧
    (handleWebhook c6Env c6Payload).2.tgAttempted = true ∧
    ((handleWebhook c6Env c6Payload).1 = WebhookResponse.serverError ↔ c6Env.tgSendOk = false) ∧
    (∀ e, (handleWebhook c6Env c6Payload).1 ≠ WebhookResponse.badRequest e) :=
  C6_amended_missing_recipients c6Env c6Payload (by decide) (by decide) (by decide)
    (by decide) (by decide) rfl rfl

/-- C7: a trading-signal payload missing one of title, action, symbol,
price is rejected with the missing-fields client error and an empty
trace (no chart fetch, no send); a payload whose action is not BUY or
SELL case-insensitively is rejected likewise; and the lower-case buy
fixture is accepted with the action upper-cased, producing the content
line BUY BTCUSD 45000 in the formatted message. -/
theorem C7_signal_validation :
    (∀ (env : ServerEnv) (p : WebhookPayload),
      (jsTruthy p.msg && jsTruthy p.symbol) = false →
      (jsTruthy p.title && jsTruthy p.action && jsTruthy p.symbol && jsTruthy p.price) = false →
      handleWebhook env p
        = (WebhookResponse.badRequest
            "Missing required fields: title, action, symbol, price (or use msg + symbol for text format)",
           {})) ∧
    (∀ (env : ServerEnv) (p : WebhookPayload),
      (jsTruthy p.msg && jsTruthy p.symbol) = false →
      (jsTruthy p.title && jsTruthy p.action && jsTruthy p.symbol && jsTruthy p.price) = true →
      (strToUpper (jsTemplate p.action) = "BUY"
          || strToUpper (jsTemplate p.action) = "SELL") = false →
      handleWebhook env p = (WebhookResponse.badRequest "Action must be either BUY or SELL", {})) ∧
    (handleWebhook c7Env c7Payload).1 = WebhookResponse.ok false false true ∧
    (handleWebhook c7Env c7Payload).2.tgMessage = some "t\ndt\n\nBUY BTCUSD 45000" := by
  refine ⟨?_, ?_, by decide, by decide⟩
  · intro env p h1 h2
    simp [handleWebhook, h1, h2]
  · intro env p h1 h2 h3
    simp [handleWebhook, h1, h2, h3]

/-- C7, witness: the HOLD payload and the missing-price payload are both
rejected with their client errors and empty traces. -/
theorem C7_signal_validation_witness :
    handleWebhook {} c7HoldPayload
      = (WebhookResponse.badRequest "Action must be either BUY or SELL", {}) ∧
    handleWebhook {} c7MissingPricePayload
      = (WebhookResponse.badRequest
          "Missing required fields: title, action, symbol, price (or use msg + symbol for text format)",
         {}) :=
  ⟨C7_signal_validation.2.1 {} c7HoldPayload (by decide) (by decide) (by decide),
   C7_signal_validation.1 {} c7MissingPricePayload (by decide) (by decide)⟩

/-- C8, counterexample: the Whapi WhatsApp formatter renders the extra
stopLoss value verbatim as STOPLOSS: 44000.12340, not the normalised
STOPLOSS: 44000.1234 the claim asserts for every formatter. -/
theorem C8_counterexample :
    formatTradingMessageWhapi "now" c8Data
      = "t\ndt\n\nBUY BTCUSD 45000\n\nSTOPLOSS: 44000.12340" ∧
    formatTradingMessageWhapi "now" c8Data
      ≠ "t\ndt\n\nBUY BTCUSD 45000\n\nSTOPLOSS: 44000.1234" := by decide

/-- C8, amended: keys are upper-cased and stripped of non-alphanumerics
in both extra-rendering formatters and the numeric value normalisation
to at most four decimals with trailing zeros trimmed is applied by the
Telegram formatter, which renders the stopLoss fixture as
STOPLOSS: 44000.1234; the Whapi WhatsApp formatter renders the value
verbatim. -/
theorem C8_amended_extra_rendering :
    formatTradingViewMessage "now" c8Data
      = "t\ndt\n\nBUY BTCUSD 45000\n\nSTOPLOSS: 44000.1234" ∧
    formatKey "stopLoss" = "STOPLOSS" ∧
    formatNumber "44000.12340" = "44000.1234" ∧
    renderExtraLines (fun v => v) whapiExcludedKeys [("stopLoss", "44000.12340")]
      = "\n\nSTOPLOSS: 44000.12340" := by decide

/-- C9: a failed fetch for one tag contributes nothing and leaves the
processing of the remaining tags exactly as if the failed tag were not
there, and the cycle always returns a successful structured result
covering every configured tag, whatever the per-tag outcomes. -/
theorem C9_tag_isolation (env : NewsEnv) (rf wf : Bool) (now : Int)
    (fetchFn : String → Except String (List NewsItem)) (recs : List SentRecord)
    (tag : String) (rest : List String) (e : String) (st : DedupStore)
    (hfail : fetchFn tag = Except.error e) :
    runTags env rf wf now fetchFn recs (tag :: rest) = runTags env rf wf now fetchFn recs rest ∧
    (checkAndSendNewNews env true st now fetchFn).1.success = true ∧
    (checkAndSendNewNews env true st now fetchFn).1.totalChecked = AVAILABLE_TAGS.length := by
  refine ⟨?_, by simp [checkAndSendNewNews], by simp [checkAndSendNewNews]⟩
  rw [runTags, hfail]
  simp [processTag]

/-- C9, witness: with every fetch failing, the first tag is transparent
and the cycle still reports success. -/
theorem C9_tag_isolation_witness :
    runTags {} false false 0 c9FetchFn [] ("CURRENCY" :: ["GOLD"])
      = runTags {} false false 0 c9FetchFn [] ["GOLD"] ∧
    (checkAndSendNewNews {} true {} 0 c9FetchFn).1.success = true :=
  ⟨(C9_tag_isolation {} false false 0 c9FetchFn [] "CURRENCY" ["GOLD"] "fetch down" {} rfl).1,
   (C9_tag_isolation {} false false 0 c9FetchFn [] "CURRENCY" ["GOLD"] "fetch down" {} rfl).2.1⟩

/-- C10: a payload with truthy msg and symbol is routed to the text
path, so it is never rejected by the trading-signal validation, and its
prepared outbound text is the trimmed msg followed by the Symbol line
with the trimmed symbol. -/
theorem C10_text_path (env : ServerEnv) (p : WebhookPayload)
    (hm : jsTruthy p.msg = true) (hs : jsTruthy p.symbol = true) :
    handleWebhook env p = handleTextMessage env p ∧
    (∀ e, (handleWebhook env p).1 ≠ WebhookResponse.badRequest e) ∧
    (handleWebhook env p).2.textBody
      = some (jsTrim (jsTemplate p.msg) ++ "\nSymbol: " ++ jsTrim (jsTemplate p.symbol)) := by
  have h1 : handleWebhook env p = handleTextMessage env p := by
    simp [handleWebhook, hm, hs]
  refine ⟨h1, ?_, ?_⟩
  · intro e
    rw [h1]
    unfold handleTextMessage
    by_cases hc : (env.waTextOk || env.tgTextOk) = true <;> simp [hc]
  · rw [h1]
    simp [handleTextMessage]

/-- C10, witness: the text fixture carrying a HOLD action and no price
is handled by the text path with the expected outbound text. -/
theorem C10_text_path_witness :
    (handleWebhook {} c10Payload).2.textBody = some "hello\nSymbol: BTCUSD" :=
  ((C10_text_path {} c10Payload (by decide) (by decide)).2.2).trans (by decide)

end WTS
